import Mathlib

/-! DATC gripper controller: command encoder and status decoder.

A shallow embedding of `DatcCtrl` (src/kr_gcs_ui/src/datc_ctrl.cpp).

* `uint16_t` values are natural numbers below `65536`; `int16_t` values are
  integers in `[-32768, 32767]`.  Conversions between the two are written
  out (`toU16`, `toI16`).
* The header `datc_ctrl.hpp` is not part of the sources at hand.  The numeric
  limits it declares (`kVelMin`, `kFingerPosMax`, ...) and the numeric value of
  each `DATC_COMMAND` enumerator are therefore parameters (`DatcConsts`).
* The Modbus transport `mbc_` is a log of the register blocks written so far
  together with the answer the link gives to each write.
-/

namespace Datc

/-! ## Machine integers -/

/-- Conversion of an integer value to `uint16_t` (reduction modulo `2^16`). -/
def toU16 (x : Int) : Nat := (x % 65536).toNat

/-- Conversion of an integer value to `int16_t` (two's complement wrap-around). -/
def toI16 (x : Int) : Int :=
  if x % 65536 < 32768 then x % 65536 else x % 65536 - 65536

/-- The function `abs` applied to an `int16_t` argument: the argument is promoted to
`int`, so that `abs(-32768) = 32768` without overflow. -/
def abs (x : Int) : Int := if x < 0 then -x else x

/-! ## Commands and constants -/

/-- The enumerators of `DATC_COMMAND` that `DatcCtrl::command` dispatches on.  An
`enum class` object may hold a value that is no enumerator; `UNDEFINED raw` stands
for such a value. -/
inductive DATC_COMMAND where
  | MOTOR_ENABLE
  | MOTOR_STOP
  | MOTOR_DISABLE
  | MOTOR_POSITION_CONTROL
  | MOTOR_VELOCITY_CONTROL
  | MOTOR_CURRENT_CONTROL
  | CHANGE_MODBUS_ADDRESS
  | GRIPPER_INITIALIZE
  | GRIPPER_OPEN
  | GRIPPER_CLOSE
  | SET_FINGER_POSITION
  | VACUUM_GRIPPER_ON
  | VACUUM_GRIPPER_OFF
  | IMPEDANCE_ON
  | IMPEDANCE_OFF
  | SET_IMPEDANCE_PARAMS
  | SET_MOTOR_TORQUE
  | SET_MOTOR_SPEED
  | UNDEFINED (raw : Nat)
  deriving DecidableEq, Repr

/-- The constants declared in `datc_ctrl.hpp`: the register value `(uint16_t) cmd` of
every command and the limits used by the range checks.  The limits are kept as
integers, as they appear in comparisons after integer promotion. -/
structure DatcConsts where
  opcode : DATC_COMMAND → Nat
  kFingerPosMin : Int
  kFingerPosMax : Int
  kVelMin : Int
  kVelMax : Int
  kCurMax : Int
  kDurationMin : Int
  kDurationMax : Int
  kTorqueRatioMin : Int
  kTorqueRatioMax : Int
  kSpeedRatioMin : Int
  kSpeedRatioMax : Int

/-! ## Transport -/

/-- The Modbus link `mbc_` as seen by the command encoder: `sent` is the list of
register blocks written so far (oldest first), `reply` is the answer of the link to
a write, given the blocks written before it. -/
structure ModbusComm where
  sent : List (List Nat)
  reply : List (List Nat) → List Nat → Bool

/-- One register-block write on the link. -/
def ModbusComm.sendData (m : ModbusComm) (v : List Nat) : Bool × ModbusComm :=
  (m.reply m.sent v, { m with sent := m.sent ++ [v] })

/-! ## Device state -/

/-- The record `DatcStatus` (member `status_`), with the fields that `readDatcData`
writes; its declaration is in the absent header, the field types are those of the
data model (`states`, `finger_pos`, `voltage` unsigned, the three motor values signed
16-bit).  The source field `initialize` is named `initialized` here. -/
structure DatcStatus where
  states : Nat
  motor_pos : Int
  motor_cur : Int
  motor_vel : Int
  finger_pos : Nat
  voltage : Nat
  enable : Bool
  initialized : Bool
  motor_pos_ctrl : Bool
  motor_vel_ctrl : Bool
  motor_cur_ctrl : Bool
  grp_open : Bool
  grp_close : Bool
  fault : Bool
  status_str : String
  deriving DecidableEq, Repr

/-- The members of `DatcCtrl` that the operations below read or write. -/
structure DatcCtrl where
  mbc_ : ModbusComm
  status_ : DatcStatus
  flag_modbus_recv_err_ : Bool

/-- Modelled from the spec: the macro `SEND_CMD_VECTOR` of the absent header
`datc_ctrl.hpp`.  The payload is written as one contiguous register block starting
at the fixed command base address, and the result is that of the write. -/
def SEND_CMD_VECTOR (v : List Nat) (d : DatcCtrl) : Bool × DatcCtrl :=
  ((d.mbc_.sendData v).1, { d with mbc_ := (d.mbc_.sendData v).2 })

/-- Modelled from the spec: the macro `SEND_CMD` of the absent header
`datc_ctrl.hpp`, an opcode-only envelope. -/
def SEND_CMD (c : DatcConsts) (cmd : DATC_COMMAND) (d : DatcCtrl) : Bool × DatcCtrl :=
  SEND_CMD_VECTOR [c.opcode cmd] d

/-! ## Command encoder -/

/-- The dispatcher `DatcCtrl::command(cmd, value_1, value_2)`.  Callers that leave out
`value_1` or `value_2` pass `0` here; the branches they reach do not read them. -/
def command (c : DatcConsts) (cmd : DATC_COMMAND) (value_1 value_2 : Nat) (d : DatcCtrl) :
    Bool × DatcCtrl :=
  match cmd with
  | .MOTOR_ENABLE => SEND_CMD c cmd d
  | .MOTOR_STOP => SEND_CMD c cmd d
  | .MOTOR_DISABLE => SEND_CMD c cmd d
  | .MOTOR_POSITION_CONTROL => SEND_CMD_VECTOR [c.opcode cmd, value_1, value_2] d
  | .MOTOR_VELOCITY_CONTROL => SEND_CMD_VECTOR [c.opcode cmd, value_1, value_2] d
  | .MOTOR_CURRENT_CONTROL => SEND_CMD_VECTOR [c.opcode cmd, value_1, value_2] d
  | .CHANGE_MODBUS_ADDRESS => SEND_CMD_VECTOR [c.opcode cmd, value_1] d
  | .GRIPPER_INITIALIZE => SEND_CMD c cmd d
  | .GRIPPER_OPEN => SEND_CMD c cmd d
  | .GRIPPER_CLOSE => SEND_CMD c cmd d
  | .SET_FINGER_POSITION => SEND_CMD_VECTOR [c.opcode cmd, value_1] d
  | .VACUUM_GRIPPER_ON => SEND_CMD c cmd d
  | .VACUUM_GRIPPER_OFF => SEND_CMD c cmd d
  | .IMPEDANCE_ON => SEND_CMD c cmd d
  | .IMPEDANCE_OFF => SEND_CMD c cmd d
  | .SET_IMPEDANCE_PARAMS => SEND_CMD_VECTOR [c.opcode cmd, value_1, value_2] d
  | .SET_MOTOR_TORQUE => SEND_CMD_VECTOR [c.opcode cmd, value_1] d
  | .SET_MOTOR_SPEED => SEND_CMD_VECTOR [c.opcode cmd, value_1] d
  | .UNDEFINED _ => (false, d)

/-- The operation `DatcCtrl::setModbusAddr(uint16_t slave_addr)`. -/
def setModbusAddr (c : DatcConsts) (slave_addr : Nat) (d : DatcCtrl) : Bool × DatcCtrl :=
  if slave_addr < 1 ∨ slave_addr ≥ 100 then (false, d)
  else command c .CHANGE_MODBUS_ADDRESS slave_addr 0 d

/-- The value of `finger_pos` after the range check of `DatcCtrl::setFingerPos`. -/
def setFingerPos_value (c : DatcConsts) (finger_pos : Nat) : Nat :=
  if (finger_pos : Int) < c.kFingerPosMin then toU16 c.kFingerPosMin
  else if (finger_pos : Int) > c.kFingerPosMax then toU16 c.kFingerPosMax
  else finger_pos

/-- The operation `DatcCtrl::setFingerPos(uint16_t finger_pos)`. -/
def setFingerPos (c : DatcConsts) (finger_pos : Nat) (d : DatcCtrl) : Bool × DatcCtrl :=
  command c .SET_FINGER_POSITION (setFingerPos_value c finger_pos) 0 d

/-- The value of `vel` after the range check of `DatcCtrl::motorVelCtrl`. -/
def motorVelCtrl_value (c : DatcConsts) (vel : Int) : Int :=
  if abs vel < c.kVelMin then toI16 (if vel ≥ 0 then c.kVelMin else -c.kVelMin)
  else if abs vel > c.kVelMax then toI16 (if vel ≥ 0 then c.kVelMax else -c.kVelMax)
  else vel

/-- The operation `DatcCtrl::motorVelCtrl(int16_t vel)`. -/
def motorVelCtrl (c : DatcConsts) (vel : Int) (d : DatcCtrl) : Bool × DatcCtrl :=
  command c .MOTOR_VELOCITY_CONTROL (toU16 (motorVelCtrl_value c vel)) 500 d

/-- The value of `cur` after the range check of `DatcCtrl::motorCurCtrl`. -/
def motorCurCtrl_value (c : DatcConsts) (cur : Int) : Int :=
  if abs cur > c.kCurMax then toI16 (if cur ≥ 0 then c.kCurMax else -c.kCurMax)
  else cur

/-- The operation `DatcCtrl::motorCurCtrl(int16_t cur)`. -/
def motorCurCtrl (c : DatcConsts) (cur : Int) (d : DatcCtrl) : Bool × DatcCtrl :=
  command c .MOTOR_CURRENT_CONTROL (toU16 (motorCurCtrl_value c cur)) 500 d

/-- The helper `DatcCtrl::checkDurationRange(error_prefix, duration)`: the result and the
value left in the reference parameter `duration`. -/
def checkDurationRange (c : DatcConsts) (duration : Nat) : Bool × Nat :=
  if (duration : Int) < c.kDurationMin then (false, toU16 c.kDurationMin)
  else if (duration : Int) > c.kDurationMax then (false, toU16 c.kDurationMax)
  else (true, duration)

/-- The operation `DatcCtrl::motorPosCtrl(int16_t pos_deg, uint16_t duration)`. -/
def motorPosCtrl (c : DatcConsts) (pos_deg : Int) (duration : Nat) (d : DatcCtrl) :
    Bool × DatcCtrl :=
  command c .MOTOR_POSITION_CONTROL (toU16 pos_deg) (checkDurationRange c duration).2 d

/-- The value of `torque_ratio` after the range check of `DatcCtrl::setMotorTorque`. -/
def setMotorTorque_value (c : DatcConsts) (torque_ratio : Nat) : Nat :=
  if (torque_ratio : Int) < c.kTorqueRatioMin then toU16 c.kTorqueRatioMin
  else if (torque_ratio : Int) > c.kTorqueRatioMax then toU16 c.kTorqueRatioMax
  else torque_ratio

/-- The operation `DatcCtrl::setMotorTorque(uint16_t torque_ratio)`. -/
def setMotorTorque (c : DatcConsts) (torque_ratio : Nat) (d : DatcCtrl) : Bool × DatcCtrl :=
  command c .SET_MOTOR_TORQUE (setMotorTorque_value c torque_ratio) 0 d

/-- The value of `speed_ratio` after the range check of `DatcCtrl::setMotorSpeed`. -/
def setMotorSpeed_value (c : DatcConsts) (speed_ratio : Nat) : Nat :=
  if (speed_ratio : Int) < c.kSpeedRatioMin then toU16 c.kSpeedRatioMin
  else if (speed_ratio : Int) > c.kSpeedRatioMax then toU16 c.kSpeedRatioMax
  else speed_ratio

/-- The operation `DatcCtrl::setMotorSpeed(uint16_t speed_ratio)`. -/
def setMotorSpeed (c : DatcConsts) (speed_ratio : Nat) (d : DatcCtrl) : Bool × DatcCtrl :=
  command c .SET_MOTOR_SPEED (setMotorSpeed_value c speed_ratio) 0 d

/-- The clamp applied to both arguments of `DatcCtrl::setImpedanceParams`, with upper
limit `hi` (`100` for `slave_num`, `10` for `stiffness_level`). -/
def setImpedanceParams_value (hi : Int) (x : Int) : Int :=
  if x < 1 then 1 else if x > hi then hi else x

/-- The operation `DatcCtrl::setImpedanceParams(int16_t slave_num, int16_t stiffness_level)`. -/
def setImpedanceParams (c : DatcConsts) (slave_num stiffness_level : Int) (d : DatcCtrl) :
    Bool × DatcCtrl :=
  command c .SET_IMPEDANCE_PARAMS (toU16 (setImpedanceParams_value 100 slave_num))
    (toU16 (setImpedanceParams_value 10 stiffness_level)) d

/-! ## Status decoder -/

/-- The `bool` members of `DatcStatus` that the table `status_info` points to. -/
inductive StatusFlag where
  | enable
  | initialized
  | motor_pos_ctrl
  | motor_vel_ctrl
  | motor_cur_ctrl
  | grp_open
  | grp_close
  | fault
  deriving DecidableEq, Repr

/-- Assignment through the pointer stored in `status_info`: `*status_info[i].first = b`. -/
def StatusFlag.assign (f : StatusFlag) (b : Bool) (s : DatcStatus) : DatcStatus :=
  match f with
  | .enable => { s with enable := b }
  | .initialized => { s with initialized := b }
  | .motor_pos_ctrl => { s with motor_pos_ctrl := b }
  | .motor_vel_ctrl => { s with motor_vel_ctrl := b }
  | .motor_cur_ctrl => { s with motor_cur_ctrl := b }
  | .grp_open => { s with grp_open := b }
  | .grp_close => { s with grp_close := b }
  | .fault => { s with fault := b }

/-- The static map `status_info` of `DatcCtrl::readDatcData`: bit, flag, label. -/
def status_info : List (Nat × (StatusFlag × String)) :=
  [ (0, (.enable, "Motor Enable")),
    (1, (.initialized, "Gripper Initialize")),
    (2, (.motor_pos_ctrl, "Motor Position Control")),
    (3, (.motor_vel_ctrl, "Motor Velocity Control")),
    (4, (.motor_cur_ctrl, "Motor Current Control")),
    (5, (.grp_open, "Gripper Open")),
    (6, (.grp_close, "Gripper Close")),
    (9, (.fault, "Motor Fault")) ]

/-- One iteration of the loop `for (int i = 0; i < 16; i++)` of `readDatcData`. -/
def readDatcData_step (status : Nat) (s : DatcStatus) (i : Nat) : DatcStatus :=
  match status_info.lookup i with
  | some (flag, label) =>
    if status &&& (1 <<< i) ≠ 0 then
      { flag.assign true s with status_str := label }
    else
      flag.assign false s
  | none => s

/-- The snapshot written by `readDatcData` when `recvData` delivered the block `reg`. -/
def readDatcData_decode (reg : List Nat) (s : DatcStatus) : DatcStatus :=
  let status := reg.getD 0 0
  let s1 : DatcStatus :=
    { s with
      states := status
      motor_pos := toI16 (reg.getD 1 0)
      motor_cur := toI16 (reg.getD 2 0)
      motor_vel := toI16 (reg.getD 3 0)
      finger_pos := reg.getD 4 0
      voltage := reg.getD 7 0
      status_str := "---" }
  let s2 := (List.range 16).foldl (readDatcData_step status) s1
  if !s2.enable then { s2 with status_str := "Motor Disabled" } else s2

/-- The operation `DatcCtrl::readDatcData()`.  The argument `recv` is the outcome of
`mbc_.recvData(10, 8, reg)`: `none` when the read failed, `some reg` when it
succeeded and filled `reg`. -/
def readDatcData (recv : Option (List Nat)) (d : DatcCtrl) : Bool × DatcCtrl :=
  match recv with
  | some reg =>
    (true, { d with status_ := readDatcData_decode reg d.status_, flag_modbus_recv_err_ := false })
  | none => (false, { d with flag_modbus_recv_err_ := true })

/-- A block of `n` registers as delivered by a successful read: `n` values of 16 bits. -/
def IsRegBlock (n : Nat) (reg : List Nat) : Prop :=
  reg.length = n ∧ ∀ x ∈ reg, x < 65536

instance (n : Nat) (reg : List Nat) : Decidable (IsRegBlock n reg) := by
  unfold IsRegBlock; infer_instance

/-- The status record at construction: every field zero, false or empty. -/
def DatcStatus.init : DatcStatus :=
  { states := 0, motor_pos := 0, motor_cur := 0, motor_vel := 0, finger_pos := 0, voltage := 0,
    enable := false, initialized := false, motor_pos_ctrl := false, motor_vel_ctrl := false,
    motor_cur_ctrl := false, grp_open := false, grp_close := false, fault := false,
    status_str := "" }

/-- The label left by the loop, as a function of the eight tested bits and of the label
before the loop. -/
def loopLabel (b0 b1 b2 b3 b4 b5 b6 b9 : Bool) (before : String) : String :=
  bif b9 then "Motor Fault"
  else bif b6 then "Gripper Close"
  else bif b5 then "Gripper Open"
  else bif b4 then "Motor Current Control"
  else bif b3 then "Motor Velocity Control"
  else bif b2 then "Motor Position Control"
  else bif b1 then "Gripper Initialize"
  else bif b0 then "Motor Enable"
  else before

/-- The eight flags and the label of a snapshot. -/
def DatcStatus.flagsAndLabel (s : DatcStatus) :
    Bool × Bool × Bool × Bool × Bool × Bool × Bool × Bool × String :=
  (s.enable, s.initialized, s.motor_pos_ctrl, s.motor_vel_ctrl, s.motor_cur_ctrl, s.grp_open,
    s.grp_close, s.fault, s.status_str)

/-! ## Polling loop -/

/-- The message `grp_control_msg::msg::GripperMsg`, with the fields that `pubTopic`
fills. -/
structure GripperMsg where
  motor_position : Int
  motor_velocity : Int
  motor_current : Int
  finger_position : Nat
  motor_enabled : Bool
  gripper_initialized : Bool
  position_ctrl_mode : Bool
  velocity_ctrl_mode : Bool
  current_ctrl_mode : Bool
  grp_opened : Bool
  grp_closed : Bool
  motor_fault : Bool
  deriving DecidableEq, Repr

/-- The message that `pubTopic` builds from the record returned by `getDatcStatus()`. -/
def GripperMsg.ofStatus (datc_status : DatcStatus) : GripperMsg :=
  { motor_position := datc_status.motor_pos
    motor_velocity := datc_status.motor_vel
    motor_current := datc_status.motor_cur
    finger_position := datc_status.finger_pos
    motor_enabled := datc_status.enable
    gripper_initialized := datc_status.initialized
    position_ctrl_mode := datc_status.motor_pos_ctrl
    velocity_ctrl_mode := datc_status.motor_vel_ctrl
    current_ctrl_mode := datc_status.motor_cur_ctrl
    grp_opened := datc_status.grp_open
    grp_closed := datc_status.grp_close
    motor_fault := datc_status.fault }

/-- The operation `DatcCommInterface::pubTopic()`: the message handed to the publisher,
or `none` when nothing is published.  The argument `connected` is the value returned by
`getConnectionState()`; the accessor `getDatcStatus()` of the absent header is taken to
return the record `status_`. -/
def pubTopic (connected : Bool) (d : DatcCtrl) : Option GripperMsg :=
  if connected then some (GripperMsg.ofStatus d.status_) else none

/-- One pass through the body of `if (dt >= period)` in `DatcCommInterface::run()`: the
controller afterwards and the message published during the pass, if any.
`connected` is the value of `getConnectionState()` in `run`, `mbcConnected` the one of
`mbc_.getConnectionState()`, `pubConnected` the one of `getConnectionState()` inside
`pubTopic`; `spin` is the effect of the service callbacks run by `spin_some`, and `recv`
the outcome of the register read of this pass. -/
def run_tick (spin : DatcCtrl → DatcCtrl) (connected mbcConnected pubConnected : Bool)
    (recv : Option (List Nat)) (d : DatcCtrl) : DatcCtrl × Option GripperMsg :=
  if connected then
    if mbcConnected then
      ((readDatcData recv (spin d)).2, pubTopic pubConnected (readDatcData recv (spin d)).2)
    else
      (spin d, none)
  else
    (d, none)

/-! ## Sample configuration

A concrete choice of the header constants and a controller with an idle link that
accepts every write, used to instantiate the general statements. -/

/-- Sample numbering of the commands. -/
def sampleOpcode : DATC_COMMAND → Nat
  | .MOTOR_ENABLE => 1
  | .MOTOR_STOP => 2
  | .MOTOR_DISABLE => 4
  | .MOTOR_POSITION_CONTROL => 5
  | .MOTOR_VELOCITY_CONTROL => 6
  | .MOTOR_CURRENT_CONTROL => 7
  | .CHANGE_MODBUS_ADDRESS => 50
  | .GRIPPER_INITIALIZE => 101
  | .GRIPPER_OPEN => 102
  | .GRIPPER_CLOSE => 103
  | .SET_FINGER_POSITION => 104
  | .VACUUM_GRIPPER_ON => 106
  | .VACUUM_GRIPPER_OFF => 107
  | .IMPEDANCE_ON => 108
  | .IMPEDANCE_OFF => 109
  | .SET_IMPEDANCE_PARAMS => 110
  | .SET_MOTOR_TORQUE => 212
  | .SET_MOTOR_SPEED => 213
  | .UNDEFINED raw => raw

/-- Sample limits. -/
def sampleConsts : DatcConsts :=
  { opcode := sampleOpcode
    kFingerPosMin := 0
    kFingerPosMax := 1000
    kVelMin := 1
    kVelMax := 1000
    kCurMax := 1000
    kDurationMin := 50
    kDurationMax := 10000
    kTorqueRatioMin := 50
    kTorqueRatioMax := 100
    kSpeedRatioMin := 1
    kSpeedRatioMax := 100 }

/-- A controller whose link has written nothing yet and accepts every write. -/
def sampleCtrl : DatcCtrl :=
  { mbc_ := { sent := [], reply := fun _ _ => true }
    status_ := DatcStatus.init
    flag_modbus_recv_err_ := false }

/-- The controller `d` after one more register-block write of `v`. -/
def DatcCtrl.afterWrite (d : DatcCtrl) (v : List Nat) : DatcCtrl :=
  { d with mbc_ := { d.mbc_ with sent := d.mbc_.sent ++ [v] } }

/-- The answer of the link of `d` to a write of `v` issued now. -/
def DatcCtrl.writeResult (d : DatcCtrl) (v : List Nat) : Bool :=
  d.mbc_.reply d.mbc_.sent v

/-! ## Command encoder: statements -/

theorem command_two_regs (c : DatcConsts) (cmd : DATC_COMMAND) (v1 v2 : Nat) (d : DatcCtrl)
    (h : cmd = .CHANGE_MODBUS_ADDRESS ∨ cmd = .SET_FINGER_POSITION ∨ cmd = .SET_MOTOR_TORQUE ∨
      cmd = .SET_MOTOR_SPEED) :
    command c cmd v1 v2 d = (d.writeResult [c.opcode cmd, v1], d.afterWrite [c.opcode cmd, v1]) := by
  rcases h with h | h | h | h <;> subst h <;> rfl

theorem command_three_regs (c : DatcConsts) (cmd : DATC_COMMAND) (v1 v2 : Nat) (d : DatcCtrl)
    (h : cmd = .MOTOR_POSITION_CONTROL ∨ cmd = .MOTOR_VELOCITY_CONTROL ∨
      cmd = .MOTOR_CURRENT_CONTROL ∨ cmd = .SET_IMPEDANCE_PARAMS) :
    command c cmd v1 v2 d =
      (d.writeResult [c.opcode cmd, v1, v2], d.afterWrite [c.opcode cmd, v1, v2]) := by
  rcases h with h | h | h | h <;> subst h <;> rfl

/-- C1. `setModbusAddr a` with `a < 1` or `a > 99` returns failure and leaves the
controller, and so the list of writes, as it was; with `1 ≤ a ≤ 99` it appends the
single write `[CHANGE_MODBUS_ADDRESS, a]` and returns the answer of the link to that
write.  In particular `0` and `100` fail without a write and `50` succeeds when the
link accepts the write. -/
theorem setModbusAddr_contract (c : DatcConsts) (a : Nat) (d : DatcCtrl) :
    ((a < 1 ∨ a > 99) → setModbusAddr c a d = (false, d)) ∧
    ((1 ≤ a ∧ a ≤ 99) → setModbusAddr c a d =
      (d.writeResult [c.opcode .CHANGE_MODBUS_ADDRESS, a],
       d.afterWrite [c.opcode .CHANGE_MODBUS_ADDRESS, a])) ∧
    setModbusAddr c 0 d = (false, d) ∧
    setModbusAddr c 100 d = (false, d) ∧
    (d.writeResult [c.opcode .CHANGE_MODBUS_ADDRESS, 50] = true →
      setModbusAddr c 50 d = (true, d.afterWrite [c.opcode .CHANGE_MODBUS_ADDRESS, 50])) := by
  refine ⟨?_, ?_, ?_, ?_, ?_⟩
  · intro h
    have h2 : a < 1 ∨ a ≥ 100 := by omega
    rw [setModbusAddr, if_pos h2]
  · intro h
    have h2 : ¬ (a < 1 ∨ a ≥ 100) := by omega
    rw [setModbusAddr, if_neg h2]
    exact command_two_regs c _ a 0 d (Or.inl rfl)
  · rfl
  · rfl
  · intro h
    have h2 : ¬ (50 < 1 ∨ 50 ≥ 100) := by omega
    rw [setModbusAddr, if_neg h2, command_two_regs c _ 50 0 d (Or.inl rfl), h]

/-- C2. With limits `0 ≤ kFingerPosMin ≤ kFingerPosMax ≤ 65535`, `setFingerPos p`
appends the single write `[SET_FINGER_POSITION, max posMin (min posMax p)]` for every
input `p`, and its result is the answer of the link to that write: the operation
never rejects. -/
theorem setFingerPos_clamps (c : DatcConsts) (p : Nat) (d : DatcCtrl)
    (h0 : 0 ≤ c.kFingerPosMin) (hle : c.kFingerPosMin ≤ c.kFingerPosMax)
    (hmax : c.kFingerPosMax ≤ 65535) :
    ∃ w : Nat, (w : Int) = max c.kFingerPosMin (min c.kFingerPosMax p) ∧
      setFingerPos c p d =
        (d.writeResult [c.opcode .SET_FINGER_POSITION, w],
         d.afterWrite [c.opcode .SET_FINGER_POSITION, w]) := by
  refine ⟨setFingerPos_value c p, ?_, command_two_regs c _ _ 0 d (Or.inr (Or.inl rfl))⟩
  simp only [setFingerPos_value, toU16]
  split_ifs <;> omega

/-- Instance of C2: limits `0` and `1000`, input `2000`. -/
theorem setFingerPos_clamps_witness :
    (0 ≤ sampleConsts.kFingerPosMin ∧ sampleConsts.kFingerPosMin ≤ sampleConsts.kFingerPosMax ∧
      sampleConsts.kFingerPosMax ≤ 65535) ∧
    ∃ w : Nat, (w : Int) = max sampleConsts.kFingerPosMin (min sampleConsts.kFingerPosMax (2000 : Nat)) ∧
      setFingerPos sampleConsts 2000 sampleCtrl =
        (sampleCtrl.writeResult [sampleConsts.opcode .SET_FINGER_POSITION, w],
         sampleCtrl.afterWrite [sampleConsts.opcode .SET_FINGER_POSITION, w]) :=
  ⟨by decide, setFingerPos_clamps sampleConsts 2000 sampleCtrl (by decide) (by decide) (by decide)⟩

/-! ## Status decoder: the loop over the sixteen bits -/

/-- The test `status & (0x01 << i)` of the loop holds exactly when bit `i` of `status`
is set. -/
theorem bit_test_iff (status i : Nat) :
    status &&& (1 <<< i) ≠ 0 ↔ status.testBit i = true := by
  rw [Nat.one_shiftLeft]
  constructor
  · intro h
    obtain ⟨j, hj⟩ := Nat.ne_zero_implies_bit_true h
    rw [Nat.testBit_and, Nat.testBit_two_pow] at hj
    simp only [Bool.and_eq_true, decide_eq_true_eq] at hj
    obtain ⟨h1, h2⟩ := hj
    subst h2
    exact h1
  · intro h hz
    have h3 : (status &&& 2 ^ i).testBit i = true := by
      rw [Nat.testBit_and, Nat.testBit_two_pow, h]; simp
    rw [hz] at h3
    simp at h3

/-- An iteration of the loop at a bit that has an entry in `status_info`. -/
theorem readDatcData_step_entry (status : Nat) (s : DatcStatus) (i : Nat) (flag : StatusFlag)
    (label : String) (h : status_info.lookup i = some (flag, label)) :
    readDatcData_step status s i =
      bif status.testBit i then { flag.assign true s with status_str := label }
      else flag.assign false s := by
  unfold readDatcData_step
  rw [h]
  cases hb : status.testBit i
  · have h2 : ¬ (status &&& (1 <<< i) ≠ 0) := by rw [bit_test_iff, hb]; simp
    simp only [if_neg h2, cond_false]
  · have h2 : status &&& (1 <<< i) ≠ 0 := by rw [bit_test_iff, hb]
    simp only [if_pos h2, cond_true]

/-- An iteration of the loop at a bit without entry in `status_info`. -/
theorem readDatcData_step_none (status : Nat) (s : DatcStatus) (i : Nat)
    (h : status_info.lookup i = none) : readDatcData_step status s i = s := by
  unfold readDatcData_step
  rw [h]

/-- The eight table iterations composed, for arbitrary outcomes of the bit tests. -/
theorem loop_compose (b0 b1 b2 b3 b4 b5 b6 b9 : Bool) (s : DatcStatus) :
    (fun t : DatcStatus => bif b9 then { StatusFlag.fault.assign true t with status_str := "Motor Fault" }
        else StatusFlag.fault.assign false t)
    ((fun t : DatcStatus => bif b6 then { StatusFlag.grp_close.assign true t with status_str := "Gripper Close" }
        else StatusFlag.grp_close.assign false t)
    ((fun t : DatcStatus => bif b5 then { StatusFlag.grp_open.assign true t with status_str := "Gripper Open" }
        else StatusFlag.grp_open.assign false t)
    ((fun t : DatcStatus => bif b4 then { StatusFlag.motor_cur_ctrl.assign true t with status_str := "Motor Current Control" }
        else StatusFlag.motor_cur_ctrl.assign false t)
    ((fun t : DatcStatus => bif b3 then { StatusFlag.motor_vel_ctrl.assign true t with status_str := "Motor Velocity Control" }
        else StatusFlag.motor_vel_ctrl.assign false t)
    ((fun t : DatcStatus => bif b2 then { StatusFlag.motor_pos_ctrl.assign true t with status_str := "Motor Position Control" }
        else StatusFlag.motor_pos_ctrl.assign false t)
    ((fun t : DatcStatus => bif b1 then { StatusFlag.initialized.assign true t with status_str := "Gripper Initialize" }
        else StatusFlag.initialized.assign false t)
    ((fun t : DatcStatus => bif b0 then { StatusFlag.enable.assign true t with status_str := "Motor Enable" }
        else StatusFlag.enable.assign false t) s))))))) =
    { s with
      enable := b0, initialized := b1, motor_pos_ctrl := b2, motor_vel_ctrl := b3,
      motor_cur_ctrl := b4, grp_open := b5, grp_close := b6, fault := b9,
      status_str := loopLabel b0 b1 b2 b3 b4 b5 b6 b9 s.status_str } := by
  cases b0 <;> cases b1 <;> cases b2 <;> cases b3 <;> cases b4 <;> cases b5 <;> cases b6 <;>
    cases b9 <;> simp only [cond_true, cond_false, StatusFlag.assign, loopLabel]

/-- The whole loop `for (int i = 0; i < 16; i++)`: every flag receives its bit of `status`
and the label is the one of the last table bit found set. -/
theorem readDatcData_loop (status : Nat) (s : DatcStatus) :
    (List.range 16).foldl (readDatcData_step status) s =
    { s with
      enable := status.testBit 0, initialized := status.testBit 1,
      motor_pos_ctrl := status.testBit 2, motor_vel_ctrl := status.testBit 3,
      motor_cur_ctrl := status.testBit 4, grp_open := status.testBit 5,
      grp_close := status.testBit 6, fault := status.testBit 9,
      status_str := loopLabel (status.testBit 0) (status.testBit 1) (status.testBit 2)
        (status.testBit 3) (status.testBit 4) (status.testBit 5) (status.testBit 6)
        (status.testBit 9) s.status_str } := by
  have hr : List.range 16 = [0, 1, 2, 3, 4, 5, 6, 7, 8, 9, 10, 11, 12, 13, 14, 15] := by decide
  rw [hr]
  simp only [List.foldl]
  rw [readDatcData_step_entry status _ 0 _ _ rfl, readDatcData_step_entry status _ 1 _ _ rfl,
    readDatcData_step_entry status _ 2 _ _ rfl, readDatcData_step_entry status _ 3 _ _ rfl,
    readDatcData_step_entry status _ 4 _ _ rfl, readDatcData_step_entry status _ 5 _ _ rfl,
    readDatcData_step_entry status _ 6 _ _ rfl, readDatcData_step_none status _ 7 rfl,
    readDatcData_step_none status _ 8 rfl, readDatcData_step_entry status _ 9 _ _ rfl,
    readDatcData_step_none status _ 10 rfl, readDatcData_step_none status _ 11 rfl,
    readDatcData_step_none status _ 12 rfl, readDatcData_step_none status _ 13 rfl,
    readDatcData_step_none status _ 14 rfl, readDatcData_step_none status _ 15 rfl]
  exact loop_compose _ _ _ _ _ _ _ _ s

/-- The snapshot written by a successful read, field by field. -/
theorem readDatcData_decode_eq (reg : List Nat) (s : DatcStatus) :
    readDatcData_decode reg s =
    { states := reg.getD 0 0
      motor_pos := toI16 (reg.getD 1 0)
      motor_cur := toI16 (reg.getD 2 0)
      motor_vel := toI16 (reg.getD 3 0)
      finger_pos := reg.getD 4 0
      voltage := reg.getD 7 0
      enable := (reg.getD 0 0).testBit 0
      initialized := (reg.getD 0 0).testBit 1
      motor_pos_ctrl := (reg.getD 0 0).testBit 2
      motor_vel_ctrl := (reg.getD 0 0).testBit 3
      motor_cur_ctrl := (reg.getD 0 0).testBit 4
      grp_open := (reg.getD 0 0).testBit 5
      grp_close := (reg.getD 0 0).testBit 6
      fault := (reg.getD 0 0).testBit 9
      status_str :=
        bif (reg.getD 0 0).testBit 0 then
          loopLabel true ((reg.getD 0 0).testBit 1) ((reg.getD 0 0).testBit 2)
            ((reg.getD 0 0).testBit 3) ((reg.getD 0 0).testBit 4) ((reg.getD 0 0).testBit 5)
            ((reg.getD 0 0).testBit 6) ((reg.getD 0 0).testBit 9) "---"
        else "Motor Disabled" } := by
  dsimp only [readDatcData_decode]
  rw [readDatcData_loop]
  generalize toI16 (reg.getD 1 0) = mp
  generalize toI16 (reg.getD 2 0) = mc
  generalize toI16 (reg.getD 3 0) = mv
  generalize (reg.getD 0 0).testBit 0 = b0
  generalize (reg.getD 0 0).testBit 1 = b1
  generalize (reg.getD 0 0).testBit 2 = b2
  generalize (reg.getD 0 0).testBit 3 = b3
  generalize (reg.getD 0 0).testBit 4 = b4
  generalize (reg.getD 0 0).testBit 5 = b5
  generalize (reg.getD 0 0).testBit 6 = b6
  generalize (reg.getD 0 0).testBit 9 = b9
  generalize reg.getD 0 0 = r0
  generalize reg.getD 4 0 = r4
  generalize reg.getD 7 0 = r7
  cases b0
  · rfl
  · rfl

/-! ## Status decoder: statements -/

/-- C3, as the code behaves.  A successful read of a block whose register 0 is
`0b0000100001` (bits 0 and 5), whatever the other registers and the previous snapshot
are, yields `enable = true`, `grp_open = true`, `motor_pos_ctrl = false` and the label
"Gripper Open".  The outcome `motor_pos_ctrl = true`, `enable = true` with label
"Motor Position Control" is the one of register 0 equal to `0b0000000101` (bits 0
and 2). -/
theorem readDatcData_bits_0_5 (p cur v f r5 r6 volt : Nat) (d : DatcCtrl) :
    ((readDatcData (some [0b0000100001, p, cur, v, f, r5, r6, volt]) d).2.status_.enable = true ∧
     (readDatcData (some [0b0000100001, p, cur, v, f, r5, r6, volt]) d).2.status_.grp_open = true ∧
     (readDatcData (some [0b0000100001, p, cur, v, f, r5, r6, volt]) d).2.status_.motor_pos_ctrl
        = false ∧
     (readDatcData (some [0b0000100001, p, cur, v, f, r5, r6, volt]) d).2.status_.status_str
        = "Gripper Open") ∧
    ((readDatcData (some [0b0000000101, p, cur, v, f, r5, r6, volt]) d).2.status_.enable = true ∧
     (readDatcData (some [0b0000000101, p, cur, v, f, r5, r6, volt]) d).2.status_.motor_pos_ctrl
        = true ∧
     (readDatcData (some [0b0000000101, p, cur, v, f, r5, r6, volt]) d).2.status_.status_str
        = "Motor Position Control") := by
  simp only [readDatcData, readDatcData_decode_eq, List.getD_cons_zero]
  refine ⟨⟨?_, ?_, ?_, ?_⟩, ?_, ?_, ?_⟩ <;> decide

/-- C3, as stated, fails: with register 0 equal to `0b0000100001` and all other
registers zero, the decoded snapshot does not have `motor_pos_ctrl = true`, and its
label is not "Motor Position Control". -/
theorem readDatcData_bits_0_5_counterexample :
    ¬ ((readDatcData (some [0b0000100001, 0, 0, 0, 0, 0, 0, 0]) sampleCtrl).2.status_.motor_pos_ctrl
        = true) ∧
    ¬ ((readDatcData (some [0b0000100001, 0, 0, 0, 0, 0, 0, 0]) sampleCtrl).2.status_.status_str
        = "Motor Position Control") := by
  decide

/-- C4. A successful read of a block whose register 0 has bit 0 clear leaves
`enable = false` and the label "Motor Disabled", whatever the other bits of register 0
(bit 9 included), the other registers and the previous snapshot are. -/
theorem readDatcData_disabled (reg : List Nat) (d : DatcCtrl)
    (h : (reg.getD 0 0).testBit 0 = false) :
    (readDatcData (some reg) d).1 = true ∧
    (readDatcData (some reg) d).2.status_.enable = false ∧
    (readDatcData (some reg) d).2.status_.status_str = "Motor Disabled" := by
  simp only [readDatcData, readDatcData_decode_eq, h, cond_false, and_self]

/-- Instance of C4: status word `0b1001111110` (every table bit but bit 0, fault
included). -/
theorem readDatcData_disabled_witness :
    (([0b1001111110, 1, 2, 3, 4, 5, 6, 7] : List Nat).getD 0 0).testBit 0 = false ∧
    (readDatcData (some [0b1001111110, 1, 2, 3, 4, 5, 6, 7]) sampleCtrl).1 = true ∧
    (readDatcData (some [0b1001111110, 1, 2, 3, 4, 5, 6, 7]) sampleCtrl).2.status_.enable = false ∧
    (readDatcData (some [0b1001111110, 1, 2, 3, 4, 5, 6, 7]) sampleCtrl).2.status_.status_str
      = "Motor Disabled" :=
  ⟨by decide, readDatcData_disabled [0b1001111110, 1, 2, 3, 4, 5, 6, 7] sampleCtrl (by decide)⟩

/-- C5. When the transport read fails, `readDatcData` returns failure, sets
`flag_modbus_recv_err_` and leaves the whole status record (and the link) as it was,
whatever the previous snapshot is. -/
theorem readDatcData_failure (d : DatcCtrl) :
    (readDatcData none d).1 = false ∧
    (readDatcData none d).2.flag_modbus_recv_err_ = true ∧
    (readDatcData none d).2.status_ = d.status_ ∧
    (readDatcData none d).2.mbc_ = d.mbc_ := by
  refine ⟨rfl, rfl, rfl, rfl⟩

/-- The bit indices that occur in `status_info`. -/
theorem status_info_bits (j : Nat) (f : StatusFlag) (l : String)
    (h : (j, (f, l)) ∈ status_info) :
    j = 0 ∨ j = 1 ∨ j = 2 ∨ j = 3 ∨ j = 4 ∨ j = 5 ∨ j = 6 ∨ j = 9 := by
  simp only [status_info, List.mem_cons, Prod.mk.injEq, List.mem_singleton, List.not_mem_nil,
    or_false] at h
  omega

/-- With bit 0 set, the label chosen by the loop is the table label of the highest table
bit that is set. -/
theorem loopLabel_highest (r : Nat) (h0 : r.testBit 0 = true) :
    ∃ i flag label, (i, (flag, label)) ∈ status_info ∧ r.testBit i = true ∧
      (∀ j f l, (j, (f, l)) ∈ status_info → r.testBit j = true → j ≤ i) ∧
      loopLabel true (r.testBit 1) (r.testBit 2) (r.testBit 3) (r.testBit 4) (r.testBit 5)
        (r.testBit 6) (r.testBit 9) "---" = label := by
  cases h9 : r.testBit 9
  swap
  · refine ⟨9, .fault, "Motor Fault", by decide, h9, fun j f l hm _ => ?_, rfl⟩
    have := status_info_bits j f l hm
    omega
  cases h6 : r.testBit 6
  swap
  · refine ⟨6, .grp_close, "Gripper Close", by decide, h6, fun j f l hm hj => ?_, rfl⟩
    rcases status_info_bits j f l hm with rfl | rfl | rfl | rfl | rfl | rfl | rfl | rfl <;>
      first | omega | simp_all
  cases h5 : r.testBit 5
  swap
  · refine ⟨5, .grp_open, "Gripper Open", by decide, h5, fun j f l hm hj => ?_, rfl⟩
    rcases status_info_bits j f l hm with rfl | rfl | rfl | rfl | rfl | rfl | rfl | rfl <;>
      first | omega | simp_all
  cases h4 : r.testBit 4
  swap
  · refine ⟨4, .motor_cur_ctrl, "Motor Current Control", by decide, h4, fun j f l hm hj => ?_, rfl⟩
    rcases status_info_bits j f l hm with rfl | rfl | rfl | rfl | rfl | rfl | rfl | rfl <;>
      first | omega | simp_all
  cases h3 : r.testBit 3
  swap
  · refine ⟨3, .motor_vel_ctrl, "Motor Velocity Control", by decide, h3, fun j f l hm hj => ?_, rfl⟩
    rcases status_info_bits j f l hm with rfl | rfl | rfl | rfl | rfl | rfl | rfl | rfl <;>
      first | omega | simp_all
  cases h2 : r.testBit 2
  swap
  · refine ⟨2, .motor_pos_ctrl, "Motor Position Control", by decide, h2, fun j f l hm hj => ?_, rfl⟩
    rcases status_info_bits j f l hm with rfl | rfl | rfl | rfl | rfl | rfl | rfl | rfl <;>
      first | omega | simp_all
  cases h1 : r.testBit 1
  swap
  · refine ⟨1, .initialized, "Gripper Initialize", by decide, h1, fun j f l hm hj => ?_, rfl⟩
    rcases status_info_bits j f l hm with rfl | rfl | rfl | rfl | rfl | rfl | rfl | rfl <;>
      first | omega | simp_all
  · refine ⟨0, .enable, "Motor Enable", by decide, h0, fun j f l hm hj => ?_, rfl⟩
    rcases status_info_bits j f l hm with rfl | rfl | rfl | rfl | rfl | rfl | rfl | rfl <;>
      first | omega | simp_all

/-- C6. After a successful read of a block whose register 0 has bit 0 set, each of the
eight flags equals its bit of register 0 (bit 0 `enable`, 1 `initialized`,
2 `motor_pos_ctrl`, 3 `motor_vel_ctrl`, 4 `motor_cur_ctrl`, 5 `grp_open`, 6 `grp_close`,
9 `fault`), and the label is the `status_info` label of the highest table bit that is
set in register 0. -/
theorem readDatcData_flags_and_label (reg : List Nat) (d : DatcCtrl)
    (h : (reg.getD 0 0).testBit 0 = true) :
    (readDatcData (some reg) d).2.status_.enable = (reg.getD 0 0).testBit 0 ∧
    (readDatcData (some reg) d).2.status_.initialized = (reg.getD 0 0).testBit 1 ∧
    (readDatcData (some reg) d).2.status_.motor_pos_ctrl = (reg.getD 0 0).testBit 2 ∧
    (readDatcData (some reg) d).2.status_.motor_vel_ctrl = (reg.getD 0 0).testBit 3 ∧
    (readDatcData (some reg) d).2.status_.motor_cur_ctrl = (reg.getD 0 0).testBit 4 ∧
    (readDatcData (some reg) d).2.status_.grp_open = (reg.getD 0 0).testBit 5 ∧
    (readDatcData (some reg) d).2.status_.grp_close = (reg.getD 0 0).testBit 6 ∧
    (readDatcData (some reg) d).2.status_.fault = (reg.getD 0 0).testBit 9 ∧
    ∃ i flag label, (i, (flag, label)) ∈ status_info ∧ (reg.getD 0 0).testBit i = true ∧
      (∀ j f l, (j, (f, l)) ∈ status_info → (reg.getD 0 0).testBit j = true → j ≤ i) ∧
      (readDatcData (some reg) d).2.status_.status_str = label := by
  simp only [readDatcData, readDatcData_decode_eq, h, cond_true, true_and]
  exact loopLabel_highest _ h

/-- Instance of C6: status word `0b1000001001` (bits 0, 3 and 9). -/
theorem readDatcData_flags_and_label_witness :
    (([0b1000001001, 1, 2, 3, 4, 5, 6, 7] : List Nat).getD 0 0).testBit 0 = true ∧
    (readDatcData (some [0b1000001001, 1, 2, 3, 4, 5, 6, 7]) sampleCtrl).2.status_.fault
      = (([0b1000001001, 1, 2, 3, 4, 5, 6, 7] : List Nat).getD 0 0).testBit 9 :=
  ⟨by decide,
    (readDatcData_flags_and_label [0b1000001001, 1, 2, 3, 4, 5, 6, 7] sampleCtrl
      (by decide)).2.2.2.2.2.2.2.1⟩

/-- The conversion `(int16_t) r` of a register value. -/
theorem toI16_reg (r : Nat) (h : r < 65536) :
    toI16 r = if r < 32768 then (r : Int) else (r : Int) - 65536 := by
  unfold toI16
  split_ifs <;> omega

/-- C7. A successful read of the block `[r0, ..., r7]` returns success, clears
`flag_modbus_recv_err_` and writes `states = r0`, `motor_pos`, `motor_cur`, `motor_vel`
equal to `r1`, `r2`, `r3` read as signed 16-bit numbers, `finger_pos = r4` and
`voltage = r7`; replacing `r5` and `r6` by any other values gives the same result. -/
theorem readDatcData_success (r0 r1 r2 r3 r4 r5 r6 r7 : Nat) (d : DatcCtrl)
    (h1 : r1 < 65536) (h2 : r2 < 65536) (h3 : r3 < 65536) :
    (readDatcData (some [r0, r1, r2, r3, r4, r5, r6, r7]) d).1 = true ∧
    (readDatcData (some [r0, r1, r2, r3, r4, r5, r6, r7]) d).2.flag_modbus_recv_err_ = false ∧
    (readDatcData (some [r0, r1, r2, r3, r4, r5, r6, r7]) d).2.status_.states = r0 ∧
    (readDatcData (some [r0, r1, r2, r3, r4, r5, r6, r7]) d).2.status_.motor_pos
      = (if r1 < 32768 then (r1 : Int) else (r1 : Int) - 65536) ∧
    (readDatcData (some [r0, r1, r2, r3, r4, r5, r6, r7]) d).2.status_.motor_cur
      = (if r2 < 32768 then (r2 : Int) else (r2 : Int) - 65536) ∧
    (readDatcData (some [r0, r1, r2, r3, r4, r5, r6, r7]) d).2.status_.motor_vel
      = (if r3 < 32768 then (r3 : Int) else (r3 : Int) - 65536) ∧
    (readDatcData (some [r0, r1, r2, r3, r4, r5, r6, r7]) d).2.status_.finger_pos = r4 ∧
    (readDatcData (some [r0, r1, r2, r3, r4, r5, r6, r7]) d).2.status_.voltage = r7 ∧
    ∀ x5 x6 : Nat, readDatcData (some [r0, r1, r2, r3, r4, x5, x6, r7]) d
      = readDatcData (some [r0, r1, r2, r3, r4, r5, r6, r7]) d := by
  refine ⟨rfl, rfl, ?_, ?_, ?_, ?_, ?_, ?_, ?_⟩
  · simp only [readDatcData, readDatcData_decode_eq]
    rfl
  · simp only [readDatcData, readDatcData_decode_eq]
    exact toI16_reg r1 h1
  · simp only [readDatcData, readDatcData_decode_eq]
    exact toI16_reg r2 h2
  · simp only [readDatcData, readDatcData_decode_eq]
    exact toI16_reg r3 h3
  · simp only [readDatcData, readDatcData_decode_eq]
    rfl
  · simp only [readDatcData, readDatcData_decode_eq]
    rfl
  · intro x5 x6
    simp only [readDatcData, readDatcData_decode_eq]
    rfl

/-- Instance of C7: the block `[1, 65535, 32768, 100, 250, 11, 12, 24]`. -/
theorem readDatcData_success_witness :
    (readDatcData (some [1, 65535, 32768, 100, 250, 11, 12, 24]) sampleCtrl).2.status_.motor_pos
      = (if 65535 < 32768 then ((65535 : Nat) : Int) else ((65535 : Nat) : Int) - 65536) :=
  (readDatcData_success 1 65535 32768 100 250 11 12 24 sampleCtrl (by decide) (by decide)
    (by decide)).2.2.2.1

/-! ## Motion commands: statements -/

/-- The register sent by `motorVelCtrl`, read back as a signed number, keeps the sign
of a nonzero input. -/
theorem motorVelCtrl_value_sign (c : DatcConsts) (x : Int)
    (hx : -32768 ≤ x ∧ x ≤ 32767) (hmin : c.kVelMin ≤ 32767)
    (hmax : 1 ≤ c.kVelMax ∧ c.kVelMax ≤ 32767) :
    (0 < x → 0 < toI16 (toU16 (motorVelCtrl_value c x))) ∧
    (x < 0 → toI16 (toU16 (motorVelCtrl_value c x)) < 0) := by
  simp only [motorVelCtrl_value, abs, toI16, toU16]
  constructor <;> intro h <;> split_ifs <;> omega

/-- The register sent by `motorCurCtrl`, read back as a signed number, keeps the sign
of a nonzero input. -/
theorem motorCurCtrl_value_sign (c : DatcConsts) (x : Int)
    (hx : -32768 ≤ x ∧ x ≤ 32767) (hmax : 1 ≤ c.kCurMax ∧ c.kCurMax ≤ 32767) :
    (0 < x → 0 < toI16 (toU16 (motorCurCtrl_value c x))) ∧
    (x < 0 → toI16 (toU16 (motorCurCtrl_value c x)) < 0) := by
  simp only [motorCurCtrl_value, abs, toI16, toU16]
  constructor <;> intro h <;> split_ifs <;> omega

/-- C8. With limits that are positive 16-bit magnitudes (`kVelMin ≤ 32767`,
`1 ≤ kVelMax ≤ 32767`, `1 ≤ kCurMax ≤ 32767`), for every nonzero signed 16-bit input
`x`, `-32768` included, `motorVelCtrl x` and `motorCurCtrl x` each append one write
`[opcode, w, 500]` whose register `w`, read as a signed 16-bit number, is nonzero and
has the sign of `x`. -/
theorem motor_ctrl_sign_preserved (c : DatcConsts) (x : Int) (d : DatcCtrl)
    (hx : -32768 ≤ x ∧ x ≤ 32767) (hne : x ≠ 0) (hvmin : c.kVelMin ≤ 32767)
    (hvmax : 1 ≤ c.kVelMax ∧ c.kVelMax ≤ 32767) (hcmax : 1 ≤ c.kCurMax ∧ c.kCurMax ≤ 32767) :
    (∃ w : Nat,
      motorVelCtrl c x d =
        (d.writeResult [c.opcode .MOTOR_VELOCITY_CONTROL, w, 500],
         d.afterWrite [c.opcode .MOTOR_VELOCITY_CONTROL, w, 500]) ∧
      toI16 w ≠ 0 ∧ (0 < x → 0 < toI16 w) ∧ (x < 0 → toI16 w < 0)) ∧
    (∃ w : Nat,
      motorCurCtrl c x d =
        (d.writeResult [c.opcode .MOTOR_CURRENT_CONTROL, w, 500],
         d.afterWrite [c.opcode .MOTOR_CURRENT_CONTROL, w, 500]) ∧
      toI16 w ≠ 0 ∧ (0 < x → 0 < toI16 w) ∧ (x < 0 → toI16 w < 0)) := by
  have hv := motorVelCtrl_value_sign c x hx hvmin hvmax
  have hc := motorCurCtrl_value_sign c x hx hcmax
  refine ⟨⟨toU16 (motorVelCtrl_value c x),
      command_three_regs c _ _ 500 d (Or.inr (Or.inl rfl)), ?_, hv.1, hv.2⟩,
    ⟨toU16 (motorCurCtrl_value c x),
      command_three_regs c _ _ 500 d (Or.inr (Or.inr (Or.inl rfl))), ?_, hc.1, hc.2⟩⟩
  · rcases lt_or_gt_of_ne hne with h | h
    · exact ne_of_lt (hv.2 h)
    · exact ne_of_gt (hv.1 h)
  · rcases lt_or_gt_of_ne hne with h | h
    · exact ne_of_lt (hc.2 h)
    · exact ne_of_gt (hc.1 h)

/-- Instance of C8: sample limits, input `-32768`. -/
theorem motor_ctrl_sign_preserved_witness :
    ((-32768 : Int) ≤ -32768 ∧ (-32768 : Int) ≤ 32767) ∧ (-32768 : Int) ≠ 0 ∧
    sampleConsts.kVelMin ≤ 32767 ∧
    (1 ≤ sampleConsts.kVelMax ∧ sampleConsts.kVelMax ≤ 32767) ∧
    (1 ≤ sampleConsts.kCurMax ∧ sampleConsts.kCurMax ≤ 32767) ∧
    ((∃ w : Nat,
      motorVelCtrl sampleConsts (-32768) sampleCtrl =
        (sampleCtrl.writeResult [sampleConsts.opcode .MOTOR_VELOCITY_CONTROL, w, 500],
         sampleCtrl.afterWrite [sampleConsts.opcode .MOTOR_VELOCITY_CONTROL, w, 500]) ∧
      toI16 w ≠ 0 ∧ ((0 : Int) < -32768 → 0 < toI16 w) ∧ ((-32768 : Int) < 0 → toI16 w < 0)) ∧
    (∃ w : Nat,
      motorCurCtrl sampleConsts (-32768) sampleCtrl =
        (sampleCtrl.writeResult [sampleConsts.opcode .MOTOR_CURRENT_CONTROL, w, 500],
         sampleCtrl.afterWrite [sampleConsts.opcode .MOTOR_CURRENT_CONTROL, w, 500]) ∧
      toI16 w ≠ 0 ∧ ((0 : Int) < -32768 → 0 < toI16 w) ∧ ((-32768 : Int) < 0 → toI16 w < 0))) :=
  ⟨by decide, by decide, by decide, by decide, by decide,
    motor_ctrl_sign_preserved sampleConsts (-32768) sampleCtrl (by decide) (by decide)
      (by decide) (by decide) (by decide)⟩

/-- C9. With limits `0 ≤ kDurationMin ≤ kDurationMax ≤ 65535`, for every signed 16-bit
`pos_deg` and every duration `dur`, `motorPosCtrl pos_deg dur` appends the single write
`[MOTOR_POSITION_CONTROL, p, w]` where `p` is the two's-complement pattern of `pos_deg`
(so that `pos_deg` is read back unaltered) and `w = max durMin (min durMax dur)`, and
returns the answer of the link.  With `kDurationMin = 50`, `motorPosCtrl 45 10` sends
position `45` and duration `50`. -/
theorem motorPosCtrl_payload (c : DatcConsts) (pos_deg : Int) (dur : Nat) (d : DatcCtrl)
    (hpos : -32768 ≤ pos_deg ∧ pos_deg ≤ 32767) (h0 : 0 ≤ c.kDurationMin)
    (hle : c.kDurationMin ≤ c.kDurationMax) (hmax : c.kDurationMax ≤ 65535) :
    (∃ p w : Nat,
      (p : Int) = (if 0 ≤ pos_deg then pos_deg else 65536 + pos_deg) ∧
      toI16 p = pos_deg ∧
      (w : Int) = max c.kDurationMin (min c.kDurationMax dur) ∧
      motorPosCtrl c pos_deg dur d =
        (d.writeResult [c.opcode .MOTOR_POSITION_CONTROL, p, w],
         d.afterWrite [c.opcode .MOTOR_POSITION_CONTROL, p, w])) ∧
    (c.kDurationMin = 50 →
      motorPosCtrl c 45 10 d =
        (d.writeResult [c.opcode .MOTOR_POSITION_CONTROL, 45, 50],
         d.afterWrite [c.opcode .MOTOR_POSITION_CONTROL, 45, 50])) := by
  constructor
  · refine ⟨toU16 pos_deg, (checkDurationRange c dur).2, ?_, ?_, ?_,
      command_three_regs c _ _ _ d (Or.inl rfl)⟩
    · simp only [toU16]
      split_ifs <;> omega
    · simp only [toI16, toU16]
      split_ifs <;> omega
    · simp only [checkDurationRange, toU16]
      split_ifs <;> omega
  · intro h50
    have h1 : (checkDurationRange c 10).2 = 50 := by
      simp only [checkDurationRange, toU16, h50]
      rfl
    have h2 : toU16 45 = 45 := rfl
    rw [motorPosCtrl, h1, h2]
    exact command_three_regs c _ _ _ d (Or.inl rfl)

/-- Instance of C9: sample limits (`kDurationMin = 50`), position `45`, duration `10`. -/
theorem motorPosCtrl_payload_witness :
    (((-32768 : Int) ≤ 45 ∧ (45 : Int) ≤ 32767) ∧ 0 ≤ sampleConsts.kDurationMin ∧
      sampleConsts.kDurationMin ≤ sampleConsts.kDurationMax ∧
      sampleConsts.kDurationMax ≤ 65535 ∧ sampleConsts.kDurationMin = 50) ∧
    motorPosCtrl sampleConsts 45 10 sampleCtrl =
      (sampleCtrl.writeResult [sampleConsts.opcode .MOTOR_POSITION_CONTROL, 45, 50],
       sampleCtrl.afterWrite [sampleConsts.opcode .MOTOR_POSITION_CONTROL, 45, 50]) :=
  ⟨by decide,
    (motorPosCtrl_payload sampleConsts 45 10 sampleCtrl (by decide) (by decide) (by decide)
      (by decide)).2 (by decide)⟩

/-- C10. With limits `0 ≤ kVelMin ≤ kVelMax ≤ 32767`, for every signed 16-bit input `v`,
`motorVelCtrl v` appends the single three-register write
`[MOTOR_VELOCITY_CONTROL, w mod 2^16, 500]` for a signed `w` with
`kVelMin ≤ |w| ≤ kVelMax`, where `w = v` whenever `kVelMin ≤ |v| ≤ kVelMax`, and a
negative `w` is sent as `65536 + w`. -/
theorem motorVelCtrl_payload (c : DatcConsts) (v : Int) (d : DatcCtrl)
    (hv : -32768 ≤ v ∧ v ≤ 32767) (h0 : 0 ≤ c.kVelMin) (hle : c.kVelMin ≤ c.kVelMax)
    (hmax : c.kVelMax ≤ 32767) :
    ∃ w : Int,
      c.kVelMin ≤ |w| ∧ |w| ≤ c.kVelMax ∧
      (c.kVelMin ≤ |v| ∧ |v| ≤ c.kVelMax → w = v) ∧
      motorVelCtrl c v d =
        (d.writeResult [c.opcode .MOTOR_VELOCITY_CONTROL, (w % 65536).toNat, 500],
         d.afterWrite [c.opcode .MOTOR_VELOCITY_CONTROL, (w % 65536).toNat, 500]) ∧
      (w < 0 → (((w % 65536).toNat : Nat) : Int) = 65536 + w) := by
  refine ⟨motorVelCtrl_value c v, ?_, ?_, ?_,
    command_three_regs c _ _ 500 d (Or.inr (Or.inl rfl)), ?_⟩
  · rcases abs_cases (motorVelCtrl_value c v) with ⟨h1, h2⟩ | ⟨h1, h2⟩ <;> rw [h1] <;>
      revert h2 <;> simp only [motorVelCtrl_value, abs, toI16] <;> split_ifs <;> omega
  · rcases abs_cases (motorVelCtrl_value c v) with ⟨h1, h2⟩ | ⟨h1, h2⟩ <;> rw [h1] <;>
      revert h2 <;> simp only [motorVelCtrl_value, abs, toI16] <;> split_ifs <;> omega
  · rcases abs_cases v with ⟨h1, h2⟩ | ⟨h1, h2⟩ <;> rw [h1] <;>
      simp only [motorVelCtrl_value, abs, toI16] <;> split_ifs <;> omega
  · have hr : -32768 ≤ motorVelCtrl_value c v ∧ motorVelCtrl_value c v ≤ 32767 := by
      simp only [motorVelCtrl_value, abs, toI16]
      split_ifs <;> omega
    omega

/-- Instance of C10: sample limits `1` and `1000`, input `-2000`. -/
theorem motorVelCtrl_payload_witness :
    (((-32768 : Int) ≤ -2000 ∧ (-2000 : Int) ≤ 32767) ∧ 0 ≤ sampleConsts.kVelMin ∧
      sampleConsts.kVelMin ≤ sampleConsts.kVelMax ∧ sampleConsts.kVelMax ≤ 32767) ∧
    ∃ w : Int,
      sampleConsts.kVelMin ≤ |w| ∧ |w| ≤ sampleConsts.kVelMax ∧
      (sampleConsts.kVelMin ≤ |(-2000 : Int)| ∧ |(-2000 : Int)| ≤ sampleConsts.kVelMax →
        w = -2000) ∧
      motorVelCtrl sampleConsts (-2000) sampleCtrl =
        (sampleCtrl.writeResult [sampleConsts.opcode .MOTOR_VELOCITY_CONTROL, (w % 65536).toNat, 500],
         sampleCtrl.afterWrite [sampleConsts.opcode .MOTOR_VELOCITY_CONTROL, (w % 65536).toNat, 500]) ∧
      (w < 0 → (((w % 65536).toNat : Nat) : Int) = 65536 + w) :=
  ⟨by decide,
    motorVelCtrl_payload sampleConsts (-2000) sampleCtrl (by decide) (by decide) (by decide)
      (by decide)⟩

/-- C11. With a limit `0 ≤ kCurMax ≤ 32767`, for every signed 16-bit input `cur`
(`-32768` included), `motorCurCtrl cur` appends the single write
`[MOTOR_CURRENT_CONTROL, w mod 2^16, 500]` where `w = cur` if `|cur| ≤ kCurMax`,
`w = kCurMax` if `cur > kCurMax` and `w = -kCurMax` if `cur < -kCurMax`; hence
`|w| ≤ kCurMax`. -/
theorem motorCurCtrl_payload (c : DatcConsts) (cur : Int) (d : DatcCtrl)
    (hc : -32768 ≤ cur ∧ cur ≤ 32767) (h0 : 0 ≤ c.kCurMax) (hmax : c.kCurMax ≤ 32767) :
    ∃ w : Int,
      (|cur| ≤ c.kCurMax → w = cur) ∧
      (cur > c.kCurMax → w = c.kCurMax) ∧
      (cur < -c.kCurMax → w = -c.kCurMax) ∧
      |w| ≤ c.kCurMax ∧
      motorCurCtrl c cur d =
        (d.writeResult [c.opcode .MOTOR_CURRENT_CONTROL, (w % 65536).toNat, 500],
         d.afterWrite [c.opcode .MOTOR_CURRENT_CONTROL, (w % 65536).toNat, 500]) := by
  refine ⟨motorCurCtrl_value c cur, ?_, ?_, ?_, ?_,
    command_three_regs c _ _ 500 d (Or.inr (Or.inr (Or.inl rfl)))⟩
  · rcases abs_cases cur with ⟨h1, h2⟩ | ⟨h1, h2⟩ <;> rw [h1] <;>
      simp only [motorCurCtrl_value, abs, toI16] <;> split_ifs <;> omega
  · simp only [motorCurCtrl_value, abs, toI16]
    split_ifs <;> omega
  · simp only [motorCurCtrl_value, abs, toI16]
    split_ifs <;> omega
  · rcases abs_cases (motorCurCtrl_value c cur) with ⟨h1, h2⟩ | ⟨h1, h2⟩ <;> rw [h1] <;>
      revert h2 <;> simp only [motorCurCtrl_value, abs, toI16] <;> split_ifs <;> omega

/-- Instance of C11: sample limit `1000`, input `-32768`. -/
theorem motorCurCtrl_payload_witness :
    (((-32768 : Int) ≤ -32768 ∧ (-32768 : Int) ≤ 32767) ∧ 0 ≤ sampleConsts.kCurMax ∧
      sampleConsts.kCurMax ≤ 32767) ∧
    ∃ w : Int,
      (|(-32768 : Int)| ≤ sampleConsts.kCurMax → w = -32768) ∧
      ((-32768 : Int) > sampleConsts.kCurMax → w = sampleConsts.kCurMax) ∧
      ((-32768 : Int) < -sampleConsts.kCurMax → w = -sampleConsts.kCurMax) ∧
      |w| ≤ sampleConsts.kCurMax ∧
      motorCurCtrl sampleConsts (-32768) sampleCtrl =
        (sampleCtrl.writeResult [sampleConsts.opcode .MOTOR_CURRENT_CONTROL, (w % 65536).toNat, 500],
         sampleCtrl.afterWrite [sampleConsts.opcode .MOTOR_CURRENT_CONTROL, (w % 65536).toNat, 500]) :=
  ⟨by decide,
    motorCurCtrl_payload sampleConsts (-32768) sampleCtrl (by decide) (by decide) (by decide)⟩

/-- C12. For every pair of inputs, `setImpedanceParams slave_num stiffness_level`
appends the single write `[SET_IMPEDANCE_PARAMS, a, b]` with
`a = max 1 (min 100 slave_num)` and `b = max 1 (min 10 stiffness_level)`, each clamped
on its own, and returns the answer of the link; an input below `1`, negative ones
included, is sent as `1`. -/
theorem setImpedanceParams_payload (c : DatcConsts) (slave_num stiffness_level : Int)
    (d : DatcCtrl) :
    ∃ a b : Nat,
      (a : Int) = max 1 (min 100 slave_num) ∧
      (b : Int) = max 1 (min 10 stiffness_level) ∧
      (slave_num < 1 → a = 1) ∧ (stiffness_level < 1 → b = 1) ∧
      setImpedanceParams c slave_num stiffness_level d =
        (d.writeResult [c.opcode .SET_IMPEDANCE_PARAMS, a, b],
         d.afterWrite [c.opcode .SET_IMPEDANCE_PARAMS, a, b]) := by
  refine ⟨toU16 (setImpedanceParams_value 100 slave_num),
    toU16 (setImpedanceParams_value 10 stiffness_level), ?_, ?_, ?_, ?_,
    command_three_regs c _ _ _ d (Or.inr (Or.inr (Or.inr rfl)))⟩
  · simp only [setImpedanceParams_value, toU16]
    split_ifs <;> omega
  · simp only [setImpedanceParams_value, toU16]
    split_ifs <;> omega
  · intro h
    simp only [setImpedanceParams_value, toU16, if_pos h]
    rfl
  · intro h
    simp only [setImpedanceParams_value, toU16, if_pos h]
    rfl

/-- C13. With limits `0 ≤ min ≤ max ≤ 65535` for each of the two operations,
`setMotorTorque r` appends the single write `[SET_MOTOR_TORQUE, max tMin (min tMax r)]`
and `setMotorSpeed r` the single write `[SET_MOTOR_SPEED, max sMin (min sMax r)]`; an
input inside the range is sent unchanged, and the result is the answer of the link. -/
theorem setMotorTorque_setMotorSpeed_clamp (c : DatcConsts) (r : Nat) (d : DatcCtrl)
    (ht0 : 0 ≤ c.kTorqueRatioMin) (htle : c.kTorqueRatioMin ≤ c.kTorqueRatioMax)
    (htmax : c.kTorqueRatioMax ≤ 65535)
    (hs0 : 0 ≤ c.kSpeedRatioMin) (hsle : c.kSpeedRatioMin ≤ c.kSpeedRatioMax)
    (hsmax : c.kSpeedRatioMax ≤ 65535) :
    (∃ w : Nat, (w : Int) = max c.kTorqueRatioMin (min c.kTorqueRatioMax r) ∧
      (c.kTorqueRatioMin ≤ r ∧ (r : Int) ≤ c.kTorqueRatioMax → w = r) ∧
      setMotorTorque c r d =
        (d.writeResult [c.opcode .SET_MOTOR_TORQUE, w],
         d.afterWrite [c.opcode .SET_MOTOR_TORQUE, w])) ∧
    (∃ w : Nat, (w : Int) = max c.kSpeedRatioMin (min c.kSpeedRatioMax r) ∧
      (c.kSpeedRatioMin ≤ r ∧ (r : Int) ≤ c.kSpeedRatioMax → w = r) ∧
      setMotorSpeed c r d =
        (d.writeResult [c.opcode .SET_MOTOR_SPEED, w],
         d.afterWrite [c.opcode .SET_MOTOR_SPEED, w])) := by
  refine ⟨⟨setMotorTorque_value c r, ?_, ?_,
      command_two_regs c _ _ 0 d (Or.inr (Or.inr (Or.inl rfl)))⟩,
    ⟨setMotorSpeed_value c r, ?_, ?_,
      command_two_regs c _ _ 0 d (Or.inr (Or.inr (Or.inr rfl)))⟩⟩
  · simp only [setMotorTorque_value, toU16]
    split_ifs <;> omega
  · simp only [setMotorTorque_value, toU16]
    split_ifs <;> omega
  · simp only [setMotorSpeed_value, toU16]
    split_ifs <;> omega
  · simp only [setMotorSpeed_value, toU16]
    split_ifs <;> omega

/-- Instance of C13: sample limits (torque `50..100`, speed `1..100`), input `7`. -/
theorem setMotorTorque_setMotorSpeed_clamp_witness :
    (0 ≤ sampleConsts.kTorqueRatioMin ∧ sampleConsts.kTorqueRatioMin ≤ sampleConsts.kTorqueRatioMax ∧
      sampleConsts.kTorqueRatioMax ≤ 65535 ∧ 0 ≤ sampleConsts.kSpeedRatioMin ∧
      sampleConsts.kSpeedRatioMin ≤ sampleConsts.kSpeedRatioMax ∧
      sampleConsts.kSpeedRatioMax ≤ 65535) ∧
    (∃ w : Nat, (w : Int) = max sampleConsts.kTorqueRatioMin (min sampleConsts.kTorqueRatioMax (7 : Nat)) ∧
      (sampleConsts.kTorqueRatioMin ≤ (7 : Nat) ∧ ((7 : Nat) : Int) ≤ sampleConsts.kTorqueRatioMax →
        w = 7) ∧
      setMotorTorque sampleConsts 7 sampleCtrl =
        (sampleCtrl.writeResult [sampleConsts.opcode .SET_MOTOR_TORQUE, w],
         sampleCtrl.afterWrite [sampleConsts.opcode .SET_MOTOR_TORQUE, w])) ∧
    (∃ w : Nat, (w : Int) = max sampleConsts.kSpeedRatioMin (min sampleConsts.kSpeedRatioMax (7 : Nat)) ∧
      (sampleConsts.kSpeedRatioMin ≤ (7 : Nat) ∧ ((7 : Nat) : Int) ≤ sampleConsts.kSpeedRatioMax →
        w = 7) ∧
      setMotorSpeed sampleConsts 7 sampleCtrl =
        (sampleCtrl.writeResult [sampleConsts.opcode .SET_MOTOR_SPEED, w],
         sampleCtrl.afterWrite [sampleConsts.opcode .SET_MOTOR_SPEED, w])) :=
  ⟨by decide,
    setMotorTorque_setMotorSpeed_clamp sampleConsts 7 sampleCtrl (by decide) (by decide)
      (by decide) (by decide) (by decide) (by decide)⟩

/-! ## Dispatch and result propagation: statements -/

theorem command_one_reg (c : DatcConsts) (cmd : DATC_COMMAND) (v1 v2 : Nat) (d : DatcCtrl)
    (h : cmd ∈ [DATC_COMMAND.MOTOR_ENABLE, .MOTOR_STOP, .MOTOR_DISABLE, .GRIPPER_INITIALIZE,
      .GRIPPER_OPEN, .GRIPPER_CLOSE, .VACUUM_GRIPPER_ON, .VACUUM_GRIPPER_OFF, .IMPEDANCE_ON,
      .IMPEDANCE_OFF]) :
    command c cmd v1 v2 d = (d.writeResult [c.opcode cmd], d.afterWrite [c.opcode cmd]) := by
  simp only [List.mem_cons, List.mem_singleton, List.not_mem_nil, or_false] at h
  rcases h with h | h | h | h | h | h | h | h | h | h <;> subst h <;> rfl

/-- A write makes the list of written blocks longer, so it cannot leave it as it was. -/
theorem afterWrite_sent_ne (d : DatcCtrl) (v : List Nat) :
    (d.afterWrite v).mbc_.sent ≠ d.mbc_.sent := by
  intro h
  have h2 := congrArg List.length h
  simp [DatcCtrl.afterWrite] at h2

/-- C14. For every value `cmd`, `command cmd v1 v2` behaves by kind: each of the ten
parameterless commands appends the one-register write `[opcode]`; change-modbus-address,
set-finger-position, set-motor-torque and set-motor-speed append `[opcode, v1]`;
position, velocity and current control and set-impedance-params append
`[opcode, v1, v2]`; the result is the answer of the link to that write.  Every
enumerator is of one of these kinds, a value outside the enumeration gives failure
without a write, and only such a value leaves the list of writes unchanged. -/
theorem command_payload_shape (c : DatcConsts) (v1 v2 : Nat) (d : DatcCtrl) :
    (∀ cmd ∈ [DATC_COMMAND.MOTOR_ENABLE, .MOTOR_STOP, .MOTOR_DISABLE, .GRIPPER_INITIALIZE,
        .GRIPPER_OPEN, .GRIPPER_CLOSE, .VACUUM_GRIPPER_ON, .VACUUM_GRIPPER_OFF, .IMPEDANCE_ON,
        .IMPEDANCE_OFF],
      command c cmd v1 v2 d = (d.writeResult [c.opcode cmd], d.afterWrite [c.opcode cmd])) ∧
    (∀ cmd ∈ [DATC_COMMAND.CHANGE_MODBUS_ADDRESS, .SET_FINGER_POSITION, .SET_MOTOR_TORQUE,
        .SET_MOTOR_SPEED],
      command c cmd v1 v2 d =
        (d.writeResult [c.opcode cmd, v1], d.afterWrite [c.opcode cmd, v1])) ∧
    (∀ cmd ∈ [DATC_COMMAND.MOTOR_POSITION_CONTROL, .MOTOR_VELOCITY_CONTROL,
        .MOTOR_CURRENT_CONTROL, .SET_IMPEDANCE_PARAMS],
      command c cmd v1 v2 d =
        (d.writeResult [c.opcode cmd, v1, v2], d.afterWrite [c.opcode cmd, v1, v2])) ∧
    (∀ raw, command c (.UNDEFINED raw) v1 v2 d = (false, d)) ∧
    (∀ cmd,
      cmd ∈ [DATC_COMMAND.MOTOR_ENABLE, .MOTOR_STOP, .MOTOR_DISABLE, .GRIPPER_INITIALIZE,
        .GRIPPER_OPEN, .GRIPPER_CLOSE, .VACUUM_GRIPPER_ON, .VACUUM_GRIPPER_OFF, .IMPEDANCE_ON,
        .IMPEDANCE_OFF] ∨
      cmd ∈ [DATC_COMMAND.CHANGE_MODBUS_ADDRESS, .SET_FINGER_POSITION, .SET_MOTOR_TORQUE,
        .SET_MOTOR_SPEED] ∨
      cmd ∈ [DATC_COMMAND.MOTOR_POSITION_CONTROL, .MOTOR_VELOCITY_CONTROL,
        .MOTOR_CURRENT_CONTROL, .SET_IMPEDANCE_PARAMS] ∨
      ∃ raw, cmd = .UNDEFINED raw) ∧
    (∀ cmd, (command c cmd v1 v2 d).2.mbc_.sent = d.mbc_.sent → ∃ raw, cmd = .UNDEFINED raw) := by
  have h2 : ∀ cmd ∈ [DATC_COMMAND.CHANGE_MODBUS_ADDRESS, .SET_FINGER_POSITION,
      .SET_MOTOR_TORQUE, .SET_MOTOR_SPEED],
      command c cmd v1 v2 d =
        (d.writeResult [c.opcode cmd, v1], d.afterWrite [c.opcode cmd, v1]) := by
    intro cmd h
    simp only [List.mem_cons, List.mem_singleton, List.not_mem_nil, or_false] at h
    exact command_two_regs c cmd v1 v2 d h
  have h3 : ∀ cmd ∈ [DATC_COMMAND.MOTOR_POSITION_CONTROL, .MOTOR_VELOCITY_CONTROL,
      .MOTOR_CURRENT_CONTROL, .SET_IMPEDANCE_PARAMS],
      command c cmd v1 v2 d =
        (d.writeResult [c.opcode cmd, v1, v2], d.afterWrite [c.opcode cmd, v1, v2]) := by
    intro cmd h
    simp only [List.mem_cons, List.mem_singleton, List.not_mem_nil, or_false] at h
    exact command_three_regs c cmd v1 v2 d h
  have hall : ∀ cmd : DATC_COMMAND,
      cmd ∈ [DATC_COMMAND.MOTOR_ENABLE, .MOTOR_STOP, .MOTOR_DISABLE, .GRIPPER_INITIALIZE,
        .GRIPPER_OPEN, .GRIPPER_CLOSE, .VACUUM_GRIPPER_ON, .VACUUM_GRIPPER_OFF, .IMPEDANCE_ON,
        .IMPEDANCE_OFF] ∨
      cmd ∈ [DATC_COMMAND.CHANGE_MODBUS_ADDRESS, .SET_FINGER_POSITION, .SET_MOTOR_TORQUE,
        .SET_MOTOR_SPEED] ∨
      cmd ∈ [DATC_COMMAND.MOTOR_POSITION_CONTROL, .MOTOR_VELOCITY_CONTROL,
        .MOTOR_CURRENT_CONTROL, .SET_IMPEDANCE_PARAMS] ∨
      ∃ raw, cmd = .UNDEFINED raw := by
    intro cmd
    cases cmd <;> simp
  refine ⟨fun cmd h => command_one_reg c cmd v1 v2 d h, h2, h3, fun _ => rfl, hall, ?_⟩
  intro cmd hs
  rcases hall cmd with h | h | h | h
  · rw [command_one_reg c cmd v1 v2 d h] at hs
    exact absurd hs (afterWrite_sent_ne d _)
  · rw [h2 cmd h] at hs
    exact absurd hs (afterWrite_sent_ne d _)
  · rw [h3 cmd h] at hs
    exact absurd hs (afterWrite_sent_ne d _)
  · exact h

/-- C15. Each of the seven clamping operations, for every input and whatever the
limits are, appends exactly one write and returns the answer of the link to that write.
In particular `motorPosCtrl` with a duration that `checkDurationRange` reports as out of
range still succeeds when the link accepts the write, and every one of the operations
fails when the link rejects every write. -/
theorem clamp_ops_result_is_write_result (c : DatcConsts) (d : DatcCtrl) :
    (∀ p : Nat, ∃ v, setFingerPos c p d = (d.writeResult v, d.afterWrite v)) ∧
    (∀ r : Nat, ∃ v, setMotorTorque c r d = (d.writeResult v, d.afterWrite v)) ∧
    (∀ r : Nat, ∃ v, setMotorSpeed c r d = (d.writeResult v, d.afterWrite v)) ∧
    (∀ x : Int, ∃ v, motorVelCtrl c x d = (d.writeResult v, d.afterWrite v)) ∧
    (∀ x : Int, ∃ v, motorCurCtrl c x d = (d.writeResult v, d.afterWrite v)) ∧
    (∀ (x : Int) (t : Nat), ∃ v, motorPosCtrl c x t d = (d.writeResult v, d.afterWrite v)) ∧
    (∀ x y : Int, ∃ v, setImpedanceParams c x y d = (d.writeResult v, d.afterWrite v)) ∧
    (∀ (x : Int) (t : Nat), (checkDurationRange c t).1 = false →
      (∀ v, d.writeResult v = true) → (motorPosCtrl c x t d).1 = true) ∧
    ((∀ v, d.writeResult v = false) →
      (∀ p : Nat, (setFingerPos c p d).1 = false) ∧
      (∀ r : Nat, (setMotorTorque c r d).1 = false) ∧
      (∀ r : Nat, (setMotorSpeed c r d).1 = false) ∧
      (∀ x : Int, (motorVelCtrl c x d).1 = false) ∧
      (∀ x : Int, (motorCurCtrl c x d).1 = false) ∧
      (∀ (x : Int) (t : Nat), (motorPosCtrl c x t d).1 = false) ∧
      (∀ x y : Int, (setImpedanceParams c x y d).1 = false)) := by
  have e1 : ∀ p : Nat, ∃ v, setFingerPos c p d = (d.writeResult v, d.afterWrite v) :=
    fun p => ⟨_, command_two_regs c _ _ 0 d (Or.inr (Or.inl rfl))⟩
  have e2 : ∀ r : Nat, ∃ v, setMotorTorque c r d = (d.writeResult v, d.afterWrite v) :=
    fun r => ⟨_, command_two_regs c _ _ 0 d (Or.inr (Or.inr (Or.inl rfl)))⟩
  have e3 : ∀ r : Nat, ∃ v, setMotorSpeed c r d = (d.writeResult v, d.afterWrite v) :=
    fun r => ⟨_, command_two_regs c _ _ 0 d (Or.inr (Or.inr (Or.inr rfl)))⟩
  have e4 : ∀ x : Int, ∃ v, motorVelCtrl c x d = (d.writeResult v, d.afterWrite v) :=
    fun x => ⟨_, command_three_regs c _ _ 500 d (Or.inr (Or.inl rfl))⟩
  have e5 : ∀ x : Int, ∃ v, motorCurCtrl c x d = (d.writeResult v, d.afterWrite v) :=
    fun x => ⟨_, command_three_regs c _ _ 500 d (Or.inr (Or.inr (Or.inl rfl)))⟩
  have e6 : ∀ (x : Int) (t : Nat), ∃ v,
      motorPosCtrl c x t d = (d.writeResult v, d.afterWrite v) :=
    fun x t => ⟨_, command_three_regs c _ _ _ d (Or.inl rfl)⟩
  have e7 : ∀ x y : Int, ∃ v, setImpedanceParams c x y d = (d.writeResult v, d.afterWrite v) :=
    fun x y => ⟨_, command_three_regs c _ _ _ d (Or.inr (Or.inr (Or.inr rfl)))⟩
  refine ⟨e1, e2, e3, e4, e5, e6, e7, ?_, ?_⟩
  · intro x t _ hacc
    obtain ⟨v, hv⟩ := e6 x t
    rw [hv]
    exact hacc v
  · intro hrej
    refine ⟨fun p => ?_, fun r => ?_, fun r => ?_, fun x => ?_, fun x => ?_, fun x t => ?_,
      fun x y => ?_⟩
    · obtain ⟨v, hv⟩ := e1 p
      rw [hv]; exact hrej v
    · obtain ⟨v, hv⟩ := e2 r
      rw [hv]; exact hrej v
    · obtain ⟨v, hv⟩ := e3 r
      rw [hv]; exact hrej v
    · obtain ⟨v, hv⟩ := e4 x
      rw [hv]; exact hrej v
    · obtain ⟨v, hv⟩ := e5 x
      rw [hv]; exact hrej v
    · obtain ⟨v, hv⟩ := e6 x t
      rw [hv]; exact hrej v
    · obtain ⟨v, hv⟩ := e7 x y
      rw [hv]; exact hrej v

/-! ## Status decoder: dependence on the inputs -/

/-- C16. A successful decode does not depend on the previous state: for any two
controllers (with the same link) and any register block the results are equal, and
in particular the snapshots agree in every field, whatever the two previous snapshots
and failure flags were.  For two blocks with the same register 0 the eight flags and
the label agree. -/
theorem readDatcData_overwrites (reg : List Nat) (m : ModbusComm) (s s' : DatcStatus)
    (e e' : Bool) (r0 a1 a2 a3 a4 a5 a6 a7 b1 b2 b3 b4 b5 b6 b7 : Nat) :
    readDatcData (some reg) { mbc_ := m, status_ := s, flag_modbus_recv_err_ := e } =
      readDatcData (some reg) { mbc_ := m, status_ := s', flag_modbus_recv_err_ := e' } ∧
    (readDatcData (some reg) { mbc_ := m, status_ := s, flag_modbus_recv_err_ := e }).2.status_ =
      (readDatcData (some reg)
        { mbc_ := m, status_ := s', flag_modbus_recv_err_ := e' }).2.status_ ∧
    (readDatcData (some [r0, a1, a2, a3, a4, a5, a6, a7])
        { mbc_ := m, status_ := s, flag_modbus_recv_err_ := e }).2.status_.flagsAndLabel =
      (readDatcData (some [r0, b1, b2, b3, b4, b5, b6, b7])
        { mbc_ := m, status_ := s', flag_modbus_recv_err_ := e' }).2.status_.flagsAndLabel := by
  refine ⟨?_, ?_, ?_⟩
  · simp only [readDatcData, readDatcData_decode_eq]
  · simp only [readDatcData, readDatcData_decode_eq]
  · simp only [readDatcData, readDatcData_decode_eq, DatcStatus.flagsAndLabel]
    rfl

/-- C17. For two status words that agree on bits 0 to 6 and on bit 9, successful
decodes give the same eight flags and the same label, whatever the other registers and
the previous states are, while `states` holds each word unchanged. -/
theorem readDatcData_ignores_unmapped_bits (r r' a1 a2 a3 a4 a5 a6 a7 b1 b2 b3 b4 b5 b6 b7 : Nat)
    (d d' : DatcCtrl)
    (h : ∀ i ∈ [0, 1, 2, 3, 4, 5, 6, 9], r.testBit i = r'.testBit i) :
    (readDatcData (some [r, a1, a2, a3, a4, a5, a6, a7]) d).2.status_.flagsAndLabel =
      (readDatcData (some [r', b1, b2, b3, b4, b5, b6, b7]) d').2.status_.flagsAndLabel ∧
    (readDatcData (some [r, a1, a2, a3, a4, a5, a6, a7]) d).2.status_.states = r ∧
    (readDatcData (some [r', b1, b2, b3, b4, b5, b6, b7]) d').2.status_.states = r' := by
  have h0 := h 0 (by decide)
  have h1 := h 1 (by decide)
  have h2 := h 2 (by decide)
  have h3 := h 3 (by decide)
  have h4 := h 4 (by decide)
  have h5 := h 5 (by decide)
  have h6 := h 6 (by decide)
  have h9 := h 9 (by decide)
  refine ⟨?_, ?_, ?_⟩
  · simp only [readDatcData, readDatcData_decode_eq, DatcStatus.flagsAndLabel,
      List.getD_cons_zero, h0, h1, h2, h3, h4, h5, h6, h9]
  · simp only [readDatcData, readDatcData_decode_eq]
    rfl
  · simp only [readDatcData, readDatcData_decode_eq]
    rfl

/-- Instance of C17: the words `0b0000100101` and `0b1111110110100101`, which differ in
bits 7, 8 and 10 to 15 only. -/
theorem readDatcData_ignores_unmapped_bits_witness :
    (∀ i ∈ [0, 1, 2, 3, 4, 5, 6, 9],
      (0b0000100101 : Nat).testBit i = (0b1111110110100101 : Nat).testBit i) ∧
    (readDatcData (some [0b0000100101, 1, 2, 3, 4, 5, 6, 7]) sampleCtrl).2.status_.flagsAndLabel =
      (readDatcData (some [0b1111110110100101, 8, 9, 10, 11, 12, 13, 14])
        sampleCtrl).2.status_.flagsAndLabel :=
  ⟨by decide,
    (readDatcData_ignores_unmapped_bits 0b0000100101 0b1111110110100101 1 2 3 4 5 6 7 8 9 10 11
      12 13 14 sampleCtrl sampleCtrl (by decide)).1⟩

/-! ## Polling loop: statements -/

/-- C18, as the code behaves.  On a pass of the run loop a message is published exactly
when the three connection checks hold (the one of `run`, the one of the link, the one of
`pubTopic`); the outcome of the register read of that pass is not consulted.  The
message is built from the snapshot as `readDatcData` left it, so on a pass whose read
fails while connected the snapshot from before the read is published. -/
theorem run_tick_publication (spin : DatcCtrl → DatcCtrl)
    (connected mbcConnected pubConnected : Bool) (recv : Option (List Nat)) (d : DatcCtrl) :
    ((run_tick spin connected mbcConnected pubConnected recv d).2 ≠ none ↔
      (connected = true ∧ mbcConnected = true ∧ pubConnected = true)) ∧
    (∀ msg, (run_tick spin connected mbcConnected pubConnected recv d).2 = some msg →
      msg = GripperMsg.ofStatus (readDatcData recv (spin d)).2.status_) ∧
    (readDatcData none (spin d)).1 = false ∧
    (run_tick spin true true true none d).2 = some (GripperMsg.ofStatus (spin d).status_) := by
  refine ⟨?_, ?_, rfl, rfl⟩
  · cases connected <;> cases mbcConnected <;> cases pubConnected <;>
      simp [run_tick, pubTopic]
  · intro msg
    cases connected <;> cases mbcConnected <;> cases pubConnected <;>
      simp [run_tick, pubTopic]
    intro h
    exact h.symm

/-- C18, as stated, fails: on a pass with the link connected and a failing register
read, the read returns failure and yet a message is published. -/
theorem run_tick_publication_counterexample :
    (readDatcData none sampleCtrl).1 = false ∧
    (run_tick id true true true none sampleCtrl).2 ≠ none := by
  decide

/-! ## Status decoder: the placeholder label -/

/-- The labels of `status_info` differ from the placeholder. -/
theorem status_info_label_ne_placeholder (i : Nat) (f : StatusFlag) (l : String)
    (h : (i, (f, l)) ∈ status_info) : l ≠ "---" := by
  simp only [status_info, List.mem_cons, Prod.mk.injEq, List.mem_singleton, List.not_mem_nil,
    or_false] at h
  rcases h with h | h | h | h | h | h | h | h <;> rw [h.2.2] <;> decide

/-- C20. After a successful read of any register block the label is "Motor Disabled"
or the label of an entry of `status_info`, and it is never the placeholder "---"; a
status word in which no table bit is set, such as `0`, gives "Motor Disabled". -/
theorem readDatcData_label_never_placeholder (reg rest : List Nat) (d : DatcCtrl) :
    ((readDatcData (some reg) d).2.status_.status_str = "Motor Disabled" ∨
      ∃ i f, (i, (f, (readDatcData (some reg) d).2.status_.status_str)) ∈ status_info) ∧
    (readDatcData (some reg) d).2.status_.status_str ≠ "---" ∧
    ((∀ i f l, (i, (f, l)) ∈ status_info → (reg.getD 0 0).testBit i = false) →
      (readDatcData (some reg) d).2.status_.status_str = "Motor Disabled") ∧
    (readDatcData (some (0 :: rest)) d).2.status_.status_str = "Motor Disabled" := by
  have key : (readDatcData (some reg) d).2.status_.status_str = "Motor Disabled" ∨
      ∃ i f, (i, (f, (readDatcData (some reg) d).2.status_.status_str)) ∈ status_info := by
    simp only [readDatcData, readDatcData_decode_eq]
    cases h0 : (reg.getD 0 0).testBit 0
    · left
      rfl
    · right
      obtain ⟨i, f, l, hm, _, _, hl⟩ := loopLabel_highest (reg.getD 0 0) h0
      refine ⟨i, f, ?_⟩
      simp only [cond_true]
      rw [hl]
      exact hm
  refine ⟨key, ?_, ?_, ?_⟩
  · rcases key with h | ⟨i, f, h⟩
    · rw [h]
      decide
    · exact status_info_label_ne_placeholder i f _ h
  · intro h
    have h0 := h 0 .enable "Motor Enable" (by decide)
    simp only [readDatcData, readDatcData_decode_eq, h0, cond_false]
  · have h0 : ((0 :: rest).getD 0 0).testBit 0 = false := by
      rw [List.getD_cons_zero]
      exact Nat.zero_testBit 0
    simp only [readDatcData, readDatcData_decode_eq, h0, cond_false]

/-! ## Velocity command: the zero input -/

/-- C21. With limits `0 < kVelMin ≤ kVelMax ≤ 32767`, `motorVelCtrl 0` appends the
single write `[MOTOR_VELOCITY_CONTROL, kVelMin, 500]`: zero is raised to the positive
minimum speed.  For every signed 16-bit input `v` the velocity register that is sent is
nonzero, also when read as a signed number. -/
theorem motorVelCtrl_never_zero (c : DatcConsts) (v : Int) (d : DatcCtrl)
    (hv : -32768 ≤ v ∧ v ≤ 32767) (hpos : 0 < c.kVelMin) (hle : c.kVelMin ≤ c.kVelMax)
    (hmax : c.kVelMax ≤ 32767) :
    motorVelCtrl c 0 d =
      (d.writeResult [c.opcode .MOTOR_VELOCITY_CONTROL, c.kVelMin.toNat, 500],
       d.afterWrite [c.opcode .MOTOR_VELOCITY_CONTROL, c.kVelMin.toNat, 500]) ∧
    ∃ w : Nat,
      motorVelCtrl c v d =
        (d.writeResult [c.opcode .MOTOR_VELOCITY_CONTROL, w, 500],
         d.afterWrite [c.opcode .MOTOR_VELOCITY_CONTROL, w, 500]) ∧
      w ≠ 0 ∧ toI16 w ≠ 0 := by
  have hz : toU16 (motorVelCtrl_value c 0) = c.kVelMin.toNat := by
    simp only [motorVelCtrl_value, abs, toI16, toU16]
    split_ifs <;> omega
  refine ⟨?_, toU16 (motorVelCtrl_value c v),
    command_three_regs c _ _ 500 d (Or.inr (Or.inl rfl)), ?_, ?_⟩
  · rw [motorVelCtrl, hz]
    exact command_three_regs c _ _ 500 d (Or.inr (Or.inl rfl))
  · simp only [motorVelCtrl_value, abs, toI16, toU16]
    split_ifs <;> omega
  · simp only [motorVelCtrl_value, abs, toI16, toU16]
    split_ifs <;> omega

/-- Instance of C21: sample limits `1` and `1000`, input `0`. -/
theorem motorVelCtrl_never_zero_witness :
    (((-32768 : Int) ≤ 0 ∧ (0 : Int) ≤ 32767) ∧ 0 < sampleConsts.kVelMin ∧
      sampleConsts.kVelMin ≤ sampleConsts.kVelMax ∧ sampleConsts.kVelMax ≤ 32767) ∧
    motorVelCtrl sampleConsts 0 sampleCtrl =
      (sampleCtrl.writeResult
        [sampleConsts.opcode .MOTOR_VELOCITY_CONTROL, sampleConsts.kVelMin.toNat, 500],
       sampleCtrl.afterWrite
        [sampleConsts.opcode .MOTOR_VELOCITY_CONTROL, sampleConsts.kVelMin.toNat, 500]) :=
  ⟨by decide,
    (motorVelCtrl_never_zero sampleConsts 0 sampleCtrl (by decide) (by decide) (by decide)
      (by decide)).1⟩

end Datc
